import Mathlib

/-!
Shallow embedding of `src/undiscord.py` (a bulk message-deletion tool) and
verification of the frozen claims about it.

Modelling conventions:
* Network interaction is modelled by explicit environments: a list of
  per-call results that the embedded functions consume in order.  A call
  made when the environment is exhausted yields `none` (the run is not
  modelled further); every claim is settled on runs where the environment
  is long enough.
* `delete_message` (with its internal network-error retries) is abstracted
  to one `DeleteResp` per top-level invocation: either a response with a
  status code and an optional Retry-After header, or a raised
  `RequestException` after its retries are exhausted.
* `search_messages` is modelled twice, at two granularities: at the level
  of the purge loop each top-level call yields a `SearchStep` (a parsed
  page or a raised exception), and at the level of its own retry logic
  (`search_messages_model`) each GET attempt is a `GetAttempt`.
* Sleeps are recorded as events (`SleepEvent`), not real time.
-/

namespace Undiscord

/-- A message record as consumed by the source: fields `id`, `content`,
`pinned` (from `message["id"]`, `message["content"]`, `message.get("pinned")`). -/
structure Message where
  id : Nat
  content : String
  pinned : Bool
deriving DecidableEq

/-- The `messages` field of a search response: an ordered sequence of groups,
each group an ordered sequence of messages (source lines 125-126 iterate
`for message_group in messages["messages"]: for message in message_group`). -/
abbrev Page := List (List Message)

/-- Result of one top-level `delete_message` call: a response carrying the
HTTP status and the optional `Retry-After` header, or a `RequestException`
raised after the internal network retries are exhausted. -/
inductive DeleteResp where
  | resp (status : Nat) (retryAfter : Option Nat)
  | raiseNet
deriving DecidableEq

/-- A sleep performed by `process_message`: the rate-limit sleep
`time.sleep(retry_after)` (source line 83) or the per-message delay
`time.sleep(delete_delay / 1000.0)` (source line 100). -/
inductive SleepEvent where
  | rateLimit (seconds : Nat)
  | deleteDelay
deriving DecidableEq

/-- Result of one `process_message` call: the returned pair
`(success, consecutive_403_errors)`, plus instrumentation: how many
`delete_message` calls were issued, which sleeps happened, and the
remaining delete environment. -/
structure PMResult where
  success : Bool
  c403 : Nat
  calls : Nat
  sleeps : List SleepEvent
  env : List DeleteResp
deriving DecidableEq

/-- Character-list prefix test (used to embed `re.search` for literal
patterns): `leadMatch need hay` holds when `need` is an initial segment of
`hay`. -/
def leadMatch : List Char → List Char → Bool
  | [], _ => true
  | _ :: _, [] => false
  | a :: as, b :: bs => a == b && leadMatch as bs

/-- Substring occurrence test on character lists. -/
def containsSub (need : List Char) : List Char → Bool
  | [] => leadMatch need []
  | c :: t => leadMatch need (c :: t) || containsSub need t

/-- Embedding of `re.search(pattern, content, re.IGNORECASE)` for literal
(metacharacter-free) patterns: case-insensitive substring occurrence.
The claims never depend on regex metacharacter semantics. -/
def re_search (pat content : String) : Bool :=
  containsSub (pat.toList.map Char.toLower) (content.toList.map Char.toLower)

/-- The source's skip condition `pattern and not re.search(...)` (line 75):
Python treats `None` and the empty string as falsy, so the filter is active
only for a non-empty pattern. -/
def patternBlocks (pat : Option String) (content : String) : Bool :=
  match pat with
  | none => false
  | some p => !(p == "") && !re_search p content

/-- The tail of `process_message` after a response with status `status` is
in hand (source lines 85-101): 204 resets the 403 counter and returns
success (skipping the delete-delay sleep); 403 increments the counter and,
at the ceiling MAX_CONSECUTIVE_403_ERRORS = 5, returns early (also skipping
the sleep); every other path sleeps `delete_delay` and returns failure. -/
def classify (status : Nat) (c403 : Nat) (calls : Nat) (pre : List SleepEvent)
    (env : List DeleteResp) : PMResult :=
  if status = 204 then
    { success := true, c403 := 0, calls := calls, sleeps := pre, env := env }
  else if status = 403 then
    if 5 ≤ c403 + 1 then
      { success := false, c403 := c403 + 1, calls := calls, sleeps := pre, env := env }
    else
      { success := false, c403 := c403 + 1, calls := calls,
        sleeps := pre ++ [SleepEvent.deleteDelay], env := env }
  else
    { success := false, c403 := c403, calls := calls,
      sleeps := pre ++ [SleepEvent.deleteDelay], env := env }

/-- Embedding of `process_message` (source lines 72-101).  Filters: skip if
pinned and `include_pinned` is false, skip if the pattern is set and the
content does not match case-insensitively.  Otherwise issue a delete; on a
429 response sleep `Retry-After` (default 1) and re-issue the delete exactly
once, then classify the response in hand. -/
def process_message (include_pinned : Bool) (pat : Option String) (m : Message)
    (c403 : Nat) (env : List DeleteResp) : Option PMResult :=
  if !include_pinned && m.pinned then
    some { success := false, c403 := c403, calls := 0, sleeps := [], env := env }
  else if patternBlocks pat m.content then
    some { success := false, c403 := c403, calls := 0, sleeps := [], env := env }
  else
    match env with
    | [] => none
    | DeleteResp.raiseNet :: rest =>
        some { success := false, c403 := c403, calls := 1,
               sleeps := [SleepEvent.deleteDelay], env := rest }
    | DeleteResp.resp st ra :: rest =>
        if st = 429 then
          match rest with
          | [] => none
          | DeleteResp.raiseNet :: rest2 =>
              some { success := false, c403 := c403, calls := 2,
                     sleeps := [SleepEvent.rateLimit (ra.getD 1), SleepEvent.deleteDelay],
                     env := rest2 }
          | DeleteResp.resp st2 _ :: rest2 =>
              some (classify st2 c403 2 [SleepEvent.rateLimit (ra.getD 1)] rest2)
        else some (classify st c403 1 [] rest)

/-- Accumulator for the page-processing loops of `delete_messages`
(source lines 125-131): counters, the 403 counter, number of
`delete_message` calls issued, remaining delete environment. -/
structure LoopAcc where
  deleted : Nat
  failed : Nat
  c403 : Nat
  dcalls : Nat
  denv : List DeleteResp
deriving DecidableEq

/-- The inner `for message in message_group` loop (source lines 126-131):
`total_deleted` is incremented when `process_message` reports success,
otherwise `total_failed` is incremented. -/
def processGroup (include_pinned : Bool) (pat : Option String) :
    List Message → LoopAcc → Option LoopAcc
  | [], acc => some acc
  | m :: ms, acc =>
    match process_message include_pinned pat m acc.c403 acc.denv with
    | none => none
    | some r =>
        processGroup include_pinned pat ms
          { deleted := acc.deleted + (if r.success then 1 else 0),
            failed := acc.failed + (if r.success then 0 else 1),
            c403 := r.c403, dcalls := acc.dcalls + r.calls, denv := r.env }

/-- The outer `for message_group in messages["messages"]` loop
(source line 125). -/
def processGroups (include_pinned : Bool) (pat : Option String) :
    List (List Message) → LoopAcc → Option LoopAcc
  | [], acc => some acc
  | g :: gs, acc =>
    match processGroup include_pinned pat g acc with
    | none => none
    | some acc2 => processGroups include_pinned pat gs acc2

/-- Result of one top-level `search_messages` call as seen by the purge
loop: a parsed page (the `messages` field, possibly empty), or a
`RequestException` propagated after the internal retries. -/
inductive SearchStep where
  | ok (page : Page)
  | fail
deriving DecidableEq

/-- The mutable state of `delete_messages` (source lines 104-107), plus
instrumentation: the `offset` argument of every `search_messages` call in
order, and the total number of `delete_message` calls issued. -/
structure RunState where
  offset : Nat
  deleted : Nat
  failed : Nat
  c403 : Nat
  searchOffsets : List Nat
  dcalls : Nat
deriving DecidableEq

/-- The inner `while True` loop of `delete_messages` (source lines
112-135): search (consuming one `SearchStep`); on an exception or an empty
page, break; otherwise set `messages_remaining`, process all groups, and
advance `offset` by `len(messages["messages"])` — the number of groups.
Returns the remaining environments, the state and the
`messages_remaining` flag. -/
def innerLoop (include_pinned : Bool) (pat : Option String) :
    List SearchStep → List DeleteResp → RunState → Bool →
    Option (List SearchStep × List DeleteResp × RunState × Bool)
  | [], _, _, _ => none
  | SearchStep.fail :: srest, denv, st, mrem =>
      some (srest, denv,
        { offset := st.offset, deleted := st.deleted, failed := st.failed,
          c403 := st.c403, searchOffsets := st.searchOffsets ++ [st.offset],
          dcalls := st.dcalls }, mrem)
  | SearchStep.ok page :: srest, denv, st, mrem =>
      if page.isEmpty then
        some (srest, denv,
          { offset := st.offset, deleted := st.deleted, failed := st.failed,
            c403 := st.c403, searchOffsets := st.searchOffsets ++ [st.offset],
            dcalls := st.dcalls }, mrem)
      else
        match processGroups include_pinned pat page
            { deleted := 0, failed := 0, c403 := st.c403, dcalls := 0, denv := denv } with
        | none => none
        | some acc =>
            innerLoop include_pinned pat srest acc.denv
              { offset := st.offset + page.length,
                deleted := st.deleted + acc.deleted,
                failed := st.failed + acc.failed,
                c403 := acc.c403,
                searchOffsets := st.searchOffsets ++ [st.offset],
                dcalls := st.dcalls + acc.dcalls } true

/-- The outer `while messages_remaining` loop of `delete_messages` (source
lines 110-138): run one pass with `messages_remaining` reset to false; if
the pass saw a nonempty page, run another pass.  Neither `offset` nor any
counter is reset between passes.  `fuel` bounds the number of passes; each
pass consumes at least one `SearchStep`, so `delete_messages` supplies
enough fuel for any run its environment can describe. -/
def outerLoop (include_pinned : Bool) (pat : Option String) :
    Nat → List SearchStep → List DeleteResp → RunState → Option RunState
  | 0, _, _, _ => none
  | fuel + 1, senv, denv, st =>
    match innerLoop include_pinned pat senv denv st false with
    | none => none
    | some (senv2, denv2, st2, mrem) =>
        if mrem then outerLoop include_pinned pat fuel senv2 denv2 st2 else some st2

/-- Embedding of `delete_messages` (source lines 103-138) run against the
given search and delete environments, starting from the initial state
`offset = 0`, all counters zero. -/
def delete_messages (include_pinned : Bool) (pat : Option String)
    (senv : List SearchStep) (denv : List DeleteResp) : Option RunState :=
  outerLoop include_pinned pat (senv.length + 1) senv denv
    { offset := 0, deleted := 0, failed := 0, c403 := 0, searchOffsets := [], dcalls := 0 }

/-- One GET attempt inside `search_messages`: a response with an HTTP
status code and (when the status is 200) a parsed body, or a network-level
`RequestException`. -/
inductive GetAttempt where
  | resp (code : Nat) (body : Page)
  | netFail
deriving DecidableEq

/-- What a `search_messages` call produces: a parsed page (status 200), the
Python value `None` (a non-200 status outside the 4xx/5xx range, for which
`raise_for_status()` does not raise), or a propagated exception. -/
inductive SearchOutcome where
  | page (p : Page)
  | noneValue
  | raised
deriving DecidableEq

/-- Embedding of `search_messages` (source lines 42-70) at GET-attempt
granularity, returning the outcome and the number of GET attempts
consumed.  Status 200 returns the body.  Any 4xx/5xx status makes
`raise_for_status()` raise `HTTPError` — a subclass of `RequestException`
— so the `except RequestException` clause catches it and retries exactly
like a network failure while `retry_count < MAX_RETRIES = 3`; at the
ceiling the exception propagates.  A non-200 status outside 4xx/5xx makes
the function return `None`. -/
def search_messages_model : List GetAttempt → Nat → Option (SearchOutcome × Nat)
  | [], _ => none
  | GetAttempt.netFail :: rest, rc =>
      if rc < 3 then
        match search_messages_model rest (rc + 1) with
        | none => none
        | some (o, k) => some (o, k + 1)
      else some (SearchOutcome.raised, 1)
  | GetAttempt.resp code body :: rest, rc =>
      if code = 200 then some (SearchOutcome.page body, 1)
      else if 400 ≤ code ∧ code < 600 then
        if rc < 3 then
          match search_messages_model rest (rc + 1) with
          | none => none
          | some (o, k) => some (o, k + 1)
        else some (SearchOutcome.raised, 1)
      else some (SearchOutcome.noneValue, 1)

/-- A value in the `params` dictionary of `search_messages` (source lines
45-54): a string, a boolean, an integer, or Python `None`. -/
inductive PVal where
  | str (v : String)
  | boolVal (v : Bool)
  | natVal (v : Nat)
  | noneVal
deriving DecidableEq, BEq

/-- Insert into an association list with Python-dict semantics: an existing
key keeps its position but takes the new value; a new key is appended. -/
def dictInsert : List (String × PVal) → String → PVal → List (String × PVal)
  | [], k, v => [(k, v)]
  | (k0, v0) :: rest, k, v =>
      if k0 == k then (k0, v) :: rest else (k0, v0) :: dictInsert rest k v

/-- A Python dict literal: entries evaluated left to right, a repeated key
overwriting the earlier value (the semantics of the duplicated `"has"` key
at source lines 48-49). -/
def dictOfEntries (entries : List (String × PVal)) : List (String × PVal) :=
  entries.foldl (fun d e => dictInsert d e.1 e.2) []

/-- Lift an optional string to a `PVal`. -/
def optStr : Option String → PVal
  | none => PVal.noneVal
  | some v => PVal.str v

/-- The `params` dict literal of `search_messages` (source lines 45-54),
with its duplicated `"has"` key. -/
def search_params (author_id content : Option String) (has_link has_file : Bool)
    (min_id max_id : Option String) (include_nsfw : Bool) (offset : Nat) :
    List (String × PVal) :=
  dictOfEntries
    [("author_id", optStr author_id),
     ("content", optStr content),
     ("has", if has_link then PVal.str "link" else PVal.noneVal),
     ("has", if has_file then PVal.str "file" else PVal.noneVal),
     ("min_id", optStr min_id),
     ("max_id", optStr max_id),
     ("include_nsfw", PVal.boolVal include_nsfw),
     ("offset", PVal.natVal offset)]

/-- The query parameters actually sent on the wire: `requests` drops
parameters whose value is `None`. -/
def sentParams (d : List (String × PVal)) : List (String × PVal) :=
  d.filter (fun e => e.2 != PVal.noneVal)

/-- Digit test and value, embedding the digit handling of
`datetime.strptime` for the fixed format. -/
def digitVal (c : Char) : Nat := c.toNat - 48

/-- Embedding of `datetime.strptime(date_str, "%Y-%m-%d %H:%M:%S")` for
zero-padded timestamps: yields `(year, month, day, hour, minute, second)`. -/
def parseDateTime (s : String) : Option (Nat × Nat × Nat × Nat × Nat × Nat) :=
  match s.toList with
  | [a, b, c, d, '-', e, f, '-', g, h, ' ', i, j, ':', k, l, ':', m, n] =>
      if a.isDigit && b.isDigit && c.isDigit && d.isDigit && e.isDigit && f.isDigit
          && g.isDigit && h.isDigit && i.isDigit && j.isDigit && k.isDigit && l.isDigit
          && m.isDigit && n.isDigit then
        some (1000 * digitVal a + 100 * digitVal b + 10 * digitVal c + digitVal d,
              10 * digitVal e + digitVal f,
              10 * digitVal g + digitVal h,
              10 * digitVal i + digitVal j,
              10 * digitVal k + digitVal l,
              10 * digitVal m + digitVal n)
      else none
  | _ => none

/-- Days from the Unix epoch (1970-01-01) to the given civil date,
proleptic Gregorian calendar. -/
def daysFromCivil (y m d : Int) : Int :=
  let y2 := if m ≤ 2 then y - 1 else y
  let era := (if 0 ≤ y2 then y2 else y2 - 399) / 400
  let yoe := y2 - era * 400
  let mp := (m + 9) % 12
  let doy := (153 * mp + 2) / 5 + d - 1
  let doe := yoe * 365 + yoe / 4 - yoe / 100 + doy
  era * 146097 + doe - 719468

/-- Embedding of `to_snowflake` (source lines 20-23) before the final
`str(...)`: `int((date.timestamp() * 1000 - 1420070400000) * 4194304)`,
with `timestamp()` on the parsed naive datetime taken as the UTC epoch
timestamp of the civil date (the source's value additionally depends on
the host timezone). -/
def to_snowflake_int (s : String) : Option Int :=
  match parseDateTime s with
  | none => none
  | some (y, mo, d, h, mi, sec) =>
      let ms : Int := daysFromCivil (Int.ofNat y) (Int.ofNat mo) (Int.ofNat d) * 86400000
        + (Int.ofNat h) * 3600000 + (Int.ofNat mi) * 60000 + (Int.ofNat sec) * 1000
      some ((ms - 1420070400000) * 4194304)

/-- Embedding of `to_snowflake` (source lines 20-23), including the final
conversion to a string. -/
def to_snowflake (s : String) : Option String :=
  (to_snowflake_int s).map (fun n => toString n)

/-- A plain deletable message used in concrete runs. -/
def msgA : Message := { id := 1, content := "hello", pinned := false }

/-- A second plain deletable message. -/
def msgB : Message := { id := 2, content := "hello", pinned := false }

/-- A pinned message, excluded whenever `include_pinned` is false. -/
def msgPinned : Message := { id := 3, content := "hello", pinned := true }

/-- Six plain messages forming one search group. -/
def sixMsgs : List Message :=
  [{ id := 11, content := "a", pinned := false },
   { id := 12, content := "b", pinned := false },
   { id := 13, content := "c", pinned := false },
   { id := 14, content := "d", pinned := false },
   { id := 15, content := "e", pinned := false },
   { id := 16, content := "f", pinned := false }]

/-- The empty pattern matches every content string (as `re.search("", s)`
always matches), so the empty pattern never blocks a message. -/
theorem re_search_empty (s : String) : re_search "" s = true := by
  unfold re_search
  cases s.toList.map Char.toLower with
  | nil => rfl
  | cons c t => rfl

/-- Claim C1 (code bug): the spec says the purge loop aborts as soon as the
consecutive-403 counter reaches 5, with no further delete call.  In the
code `delete_messages` never inspects the counter — `process_message`
merely returns early at the ceiling (source lines 92-94, despite its own
log message announcing that it is stopping further attempts) — so on a
page of six messages whose deletes all return 403, a sixth delete call is
issued and the counter reaches 6. -/
theorem c1_code_run :
    delete_messages false none
      [SearchStep.ok [sixMsgs], SearchStep.ok [], SearchStep.ok []]
      (List.replicate 6 (DeleteResp.resp 403 none)) =
    some { offset := 1, deleted := 0, failed := 6, c403 := 6,
           searchOffsets := [0, 1, 1], dcalls := 6 } := by decide

/-- Claim C2 (code bug): the spec says every new pass restarts at offset 0
and is triggered only by a pass that deleted something.  In the code the
offset is initialised once (source line 104) and never reset: after a pass
that deleted one message (searches at offsets 0 then 1), the recheck pass
issues its search at offset 1, not 0. -/
theorem c2_code_run :
    delete_messages false none
      [SearchStep.ok [[msgA]], SearchStep.ok [], SearchStep.ok []]
      [DeleteResp.resp 204 none] =
    some { offset := 1, deleted := 1, failed := 0, c403 := 0,
           searchOffsets := [0, 1, 1], dcalls := 1 } := by decide

/-- Claim C3, counterexample: a run whose second search raises (after a
first nonempty page whose message was deleted) still issues a third search
— the failure only breaks the current pass (source line 117), and since
`messages_remaining` was already set the outer loop starts another pass.
The claim, which says the run stops at the failure, would leave the
search-offset trace at `[0, 1]`. -/
theorem c3_counterexample :
    (delete_messages false none
        [SearchStep.ok [[msgA]], SearchStep.fail, SearchStep.ok []]
        [DeleteResp.resp 204 none]).map (fun st => st.searchOffsets) = some [0, 1, 1]
    ∧ (delete_messages false none
        [SearchStep.ok [[msgA]], SearchStep.fail, SearchStep.ok []]
        [DeleteResp.resp 204 none]).map (fun st => st.searchOffsets) ≠ some [0, 1] := by
  decide

/-- Claim C3, amended: an unrecoverable search failure ends only the
current pass, leaving `messages_remaining` as already accumulated; the
whole run stops at the failure exactly when the failing search was the
first search of its pass — in particular a run whose very first search
raises performs exactly that one search call and nothing else. -/
theorem c3_amended :
    (∀ (ip : Bool) (pat : Option String) (srest : List SearchStep)
        (denv : List DeleteResp) (st : RunState) (mrem : Bool),
      innerLoop ip pat (SearchStep.fail :: srest) denv st mrem =
        some (srest, denv,
          { offset := st.offset, deleted := st.deleted, failed := st.failed,
            c403 := st.c403, searchOffsets := st.searchOffsets ++ [st.offset],
            dcalls := st.dcalls }, mrem))
    ∧ (∀ (ip : Bool) (pat : Option String) (srest : List SearchStep)
        (denv : List DeleteResp),
      delete_messages ip pat (SearchStep.fail :: srest) denv =
        some { offset := 0, deleted := 0, failed := 0, c403 := 0,
               searchOffsets := [0], dcalls := 0 }) := by
  constructor
  · intro ip pat srest denv st mrem
    rfl
  · intro ip pat srest denv
    simp only [delete_messages, List.length_cons, outerLoop, innerLoop]
    rfl

/-- Claim C4, counterexample: on a page of two groups of two messages each
(four messages flattened, all deleted), the offset after the page is 2 —
`offset += len(messages["messages"])` (source line 133) counts groups, not
flattened messages, so the claimed increment of 4 is wrong. -/
theorem c4_counterexample :
    (delete_messages false none
        [SearchStep.ok [[msgA, msgB],
          [{ id := 4, content := "x", pinned := false },
           { id := 5, content := "y", pinned := false }]],
         SearchStep.ok [], SearchStep.ok []]
        (List.replicate 4 (DeleteResp.resp 204 none))).map (fun st => st.offset) = some 2
    ∧ (delete_messages false none
        [SearchStep.ok [[msgA, msgB],
          [{ id := 4, content := "x", pinned := false },
           { id := 5, content := "y", pinned := false }]],
         SearchStep.ok [], SearchStep.ok []]
        (List.replicate 4 (DeleteResp.resp 204 none))).map (fun st => st.offset) ≠ some 4 := by
  decide

/-- Claim C4, amended: after processing a full nonempty page the loop
advances the offset by the number of groups in the page
(`len(messages["messages"])`), not by the flattened message count. -/
theorem c4_amended (ip : Bool) (pat : Option String) (page : Page)
    (srest : List SearchStep) (denv : List DeleteResp) (st : RunState) (mrem : Bool)
    (acc : LoopAcc) (hne : page ≠ [])
    (hacc : processGroups ip pat page
      { deleted := 0, failed := 0, c403 := st.c403, dcalls := 0, denv := denv } = some acc) :
    innerLoop ip pat (SearchStep.ok page :: srest) denv st mrem =
      innerLoop ip pat srest acc.denv
        { offset := st.offset + page.length, deleted := st.deleted + acc.deleted,
          failed := st.failed + acc.failed, c403 := acc.c403,
          searchOffsets := st.searchOffsets ++ [st.offset],
          dcalls := st.dcalls + acc.dcalls } true := by
  cases page with
  | nil => exact absurd rfl hne
  | cons g gs =>
      simp only [innerLoop, List.isEmpty_cons, Bool.false_eq_true, if_false, hacc]

/-- Instantiation of `c4_amended` at a one-group page containing one
deletable message. -/
theorem c4_amended_witness :
    (([[msgA]] : Page) ≠ []) ∧
    innerLoop false none [SearchStep.ok [[msgA]]] [DeleteResp.resp 204 none]
        { offset := 0, deleted := 0, failed := 0, c403 := 0,
          searchOffsets := [], dcalls := 0 } false =
      innerLoop false none [] []
        { offset := 1, deleted := 1, failed := 0, c403 := 0,
          searchOffsets := [0], dcalls := 1 } true :=
  ⟨by decide,
   c4_amended false none [[msgA]] [] [DeleteResp.resp 204 none]
     { offset := 0, deleted := 0, failed := 0, c403 := 0, searchOffsets := [], dcalls := 0 }
     false
     { deleted := 1, failed := 0, c403 := 0, dcalls := 1, denv := [] }
     (by decide) rfl⟩

/-- Claim C5, counterexample: on the spec's scenario — one page of three
messages, two deletable and one pinned with `include_pinned = false` — the
final counters are not `{deleted: 2, failed: 0}`: the loop increments
`total_failed` whenever `process_message` returns `False` (source lines
130-131), which includes filter skips, so the pinned message is counted as
failed. -/
theorem c5_counterexample :
    ¬ ((delete_messages false none
        [SearchStep.ok [[msgA, msgPinned, msgB]], SearchStep.ok [], SearchStep.ok []]
        [DeleteResp.resp 204 none, DeleteResp.resp 204 none]).map
        (fun st => (st.deleted, st.failed)) = some (2, 0)) := by
  decide

/-- Claim C5, amended: skipped messages are counted into `total_failed`;
on the scenario page of three messages (two deletable, one pinned and
excluded) exactly 2 delete calls are issued and the final counters are
`{deleted: 2, failed: 1}`. -/
theorem c5_amended :
    (delete_messages false none
        [SearchStep.ok [[msgA, msgPinned, msgB]], SearchStep.ok [], SearchStep.ok []]
        [DeleteResp.resp 204 none, DeleteResp.resp 204 none]).map
        (fun st => (st.deleted, st.failed, st.dcalls)) = some (2, 1, 2) := by
  decide

/-- Claim C6, counterexample: a GET attempt answered with HTTP 500 does not
surface an error — `raise_for_status()` raises `HTTPError`, a subclass of
`RequestException`, which the retry handler catches (source lines 62-67) —
so a second attempt is issued and its 200 response is returned.  Under the
claim the call would have failed carrying status 500 after one attempt. -/
theorem c6_counterexample :
    search_messages_model [GetAttempt.resp 500 [], GetAttempt.resp 200 [[msgA]]] 0 =
      some (SearchOutcome.page [[msgA]], 2)
    ∧ (some (SearchOutcome.page [[msgA]], 2) : Option (SearchOutcome × Nat)) ≠
        some (SearchOutcome.raised, 1) := by
  decide

/-- Claim C6, amended: HTTP 4xx/5xx statuses are retried exactly like
network-level failures — while fewer than 3 retries have been used, an
error-status attempt is followed by a retry, the call's result being that
of the remaining attempts with the attempt count increased by one. -/
theorem c6_amended (code : Nat) (body : Page) (rest : List GetAttempt) (rc : Nat)
    (h1 : 400 ≤ code) (h2 : code < 600) (h3 : rc < 3) :
    search_messages_model (GetAttempt.resp code body :: rest) rc =
      (search_messages_model rest (rc + 1)).map (fun p => (p.1, p.2 + 1)) := by
  have hne : ¬ code = 200 := by omega
  rw [search_messages_model, if_neg hne, if_pos ⟨h1, h2⟩, if_pos h3]
  cases search_messages_model rest (rc + 1) with
  | none => rfl
  | some p => cases p with | mk o k => rfl

/-- Instantiation of `c6_amended` at a 500-status first attempt followed by
a 200-status attempt. -/
theorem c6_amended_witness :
    400 ≤ 500 ∧ 500 < 600 ∧ 0 < 3 ∧
    search_messages_model [GetAttempt.resp 500 [], GetAttempt.resp 200 []] 0 =
      (search_messages_model [GetAttempt.resp 200 []] (0 + 1)).map
        (fun p => (p.1, p.2 + 1)) :=
  ⟨by decide, by decide, by decide,
   c6_amended 500 [] [GetAttempt.resp 200 []] 0 (by decide) (by decide) (by decide)⟩

/-- Claim C7 (confirmed): a message failing an enabled client-side filter —
pinned while `include_pinned` is false, or a pattern set whose
case-insensitive match against the content fails — is never passed to the
Delete Executor: `process_message` returns `(False, counter)` unchanged
with zero `delete_message` calls, no sleeps, and the delete environment
untouched (source lines 73-76). -/
theorem c7_filter_skip (ip : Bool) (pat : Option String) (m : Message) (c : Nat)
    (env : List DeleteResp)
    (h : (ip = false ∧ m.pinned = true) ∨
      ∃ p, pat = some p ∧ re_search p m.content = false) :
    process_message ip pat m c env =
      some { success := false, c403 := c, calls := 0, sleeps := [], env := env } := by
  by_cases hb : (!ip && m.pinned) = true
  · unfold process_message
    rw [if_pos hb]
  · have hpat : patternBlocks pat m.content = true := by
      rcases h with ⟨hip, hpin⟩ | ⟨p, hp, hm⟩
      · exact absurd (show (!ip && m.pinned) = true by rw [hip, hpin]; rfl) hb
      · subst hp
        have hpe : ¬ p = "" := by
          intro he
          subst he
          rw [re_search_empty] at hm
          cases hm
        simp only [patternBlocks, hm, Bool.not_false, Bool.and_true,
          Bool.not_eq_true', beq_eq_false_iff_ne, ne_eq]
        exact hpe
    unfold process_message
    rw [if_neg hb, if_pos hpat]

/-- Instantiation of `c7_filter_skip` at a pinned message with
`include_pinned = false`. -/
theorem c7_filter_skip_witness :
    (false = false ∧ msgPinned.pinned = true) ∧
    process_message false none msgPinned 0 [] =
      some { success := false, c403 := 0, calls := 0, sleeps := [], env := [] } :=
  ⟨⟨rfl, rfl⟩, c7_filter_skip false none msgPinned 0 [] (Or.inl ⟨rfl, rfl⟩)⟩

/-- Claim C8 (confirmed): on a 429 response `process_message` sleeps the
`Retry-After` duration (default 1 when the header is absent) and re-issues
the delete exactly once — exactly two `delete_message` calls, the rest of
the delete environment untouched — and the second response's status alone
determines the outcome; in particular a second 429 lands in the
other-failure branch with no further retry (source lines 80-84, 95-96). -/
theorem c8_rate_limit_retry_once (ip : Bool) (pat : Option String) (m : Message)
    (c : Nat) (ra ra2 : Option Nat) (rest : List DeleteResp)
    (h1 : (!ip && m.pinned) = false) (h2 : patternBlocks pat m.content = false) :
    process_message ip pat m c
        (DeleteResp.resp 429 ra :: DeleteResp.resp 429 ra2 :: rest) =
      some { success := false, c403 := c, calls := 2,
             sleeps := [SleepEvent.rateLimit (ra.getD 1), SleepEvent.deleteDelay],
             env := rest }
    ∧ ∀ (st2 : Nat) (rb2 : Option Nat),
        process_message ip pat m c
            (DeleteResp.resp 429 ra :: DeleteResp.resp st2 rb2 :: rest) =
          some (classify st2 c 2 [SleepEvent.rateLimit (ra.getD 1)] rest) := by
  have key : ∀ (st2 : Nat) (rb2 : Option Nat),
      process_message ip pat m c
          (DeleteResp.resp 429 ra :: DeleteResp.resp st2 rb2 :: rest) =
        some (classify st2 c 2 [SleepEvent.rateLimit (ra.getD 1)] rest) := by
    intro st2 rb2
    unfold process_message
    rw [if_neg (by rw [h1]; exact Bool.false_ne_true),
      if_neg (by rw [h2]; exact Bool.false_ne_true)]
    rfl
  refine ⟨?_, key⟩
  rw [key 429 ra2]
  rfl

/-- Instantiation of `c8_rate_limit_retry_once` at an unpinned message,
no pattern, `Retry-After: 2`, and a second 429 response. -/
theorem c8_rate_limit_retry_once_witness :
    (!true && msgA.pinned) = false ∧ patternBlocks none msgA.content = false ∧
    process_message true none msgA 0
        [DeleteResp.resp 429 (some 2), DeleteResp.resp 429 none] =
      some { success := false, c403 := 0, calls := 2,
             sleeps := [SleepEvent.rateLimit 2, SleepEvent.deleteDelay], env := [] } :=
  ⟨rfl, rfl,
   (c8_rate_limit_retry_once true none msgA 0 (some 2) none [] rfl rfl).1⟩

set_option maxHeartbeats 2000000 in
/-- Claim C9 (confirmed): `to_snowflake` applies
`(timestamp_ms - 1420070400000) * 2^22`; at the platform epoch
`"2015-01-01 00:00:00"` it yields `"0"`, and one second later
`"4194304000"` = 1000 ms × 2^22 (timestamps interpreted as UTC). -/
theorem c9_to_snowflake :
    to_snowflake "2015-01-01 00:00:00" = some "0"
    ∧ to_snowflake "2015-01-01 00:00:01" = some "4194304000"
    ∧ to_snowflake_int "2015-01-01 00:00:01" = some (1000 * 2 ^ 22) := by
  refine ⟨by decide, by decide, by decide⟩

set_option maxHeartbeats 2000000 in
/-- Claim C10 (confirmed): in the `params` dict of `search_messages` the
duplicated `"has"` key makes the `has_file` entry overwrite the `has_link`
entry unconditionally: the `has` parameter actually sent is `"file"` when
`has_file` is true and absent otherwise, and the whole parameter dict is
unchanged if `has_link` is replaced by `false`. -/
theorem c10_has_param (author_id content : Option String) (has_link has_file : Bool)
    (min_id max_id : Option String) (include_nsfw : Bool) (offset : Nat) :
    (sentParams (search_params author_id content has_link has_file min_id max_id
        include_nsfw offset)).lookup "has" =
      (if has_file then some (PVal.str "file") else none)
    ∧ search_params author_id content has_link has_file min_id max_id include_nsfw offset =
        search_params author_id content false has_file min_id max_id include_nsfw offset := by
  cases author_id <;> cases content <;> cases min_id <;> cases max_id <;>
    cases has_link <;> cases has_file <;> exact ⟨rfl, rfl⟩

end Undiscord
